import Mathlib

set_option maxHeartbeats 1000000

/-!
Verification development for the sih-backend submission service.

The repository is a set of near-duplicate Express backends.  We embed the
request handlers as pure Lean functions over explicit state:

* the flat-file store (`submissions.json`) is a `List Submission` in memory
  and an optional JSON tree on disk;
* the external pinning call is an explicit `PinOutcome` argument;
* the remote-table (Supabase) variant's table is a `List Submission`, with
  the external client's contract (ORDER BY, single-row update) modelled from
  the specification of that external interface.

JavaScript records are embedded as Lean structures; a field that can be the
JS value `undefined` is an `Option` field that is dropped by the JSON
encoder (as `JSON.stringify` drops it), while a field that the code sets to
`null` is an `Option` field encoded as JSON `null`.
-/

/-- JSON trees, the values produced by `JSON.parse` / consumed by
`JSON.stringify`.  The text layer of the platform JSON library is the
identity on these trees and is not re-modelled. -/
inductive Json where
  | null : Json
  | str : String → Json
  | num : Nat → Json
  | boolean : Bool → Json
  | arr : List Json → Json
  | obj : List (String × Json) → Json

/-- Property lookup on an object field list (first match wins). -/
def lookupField : List (String × Json) → String → Option Json
  | [], _ => none
  | (k, v) :: rest, key => if k = key then some v else lookupField rest key

/-- Property access `j[key]` on a JSON tree; `none` is JS `undefined`. -/
def jsonField (j : Json) (key : String) : Option Json :=
  match j with
  | Json.obj fields => lookupField fields key
  | _ => none

/-- A submission record as assembled by `POST /submitData` in `server.js`
(and identically by `part_000` and `part_002`), plus the three evidence
fields that `POST /api/submissions/:id/minted` spreads onto it.
`applicantAddress`, `title`, `description`, `latitude`, `longitude` and
`imageUrl` are set to `null` when absent (`body.x || null`); `ipfsHash`,
`txHash`, `tokenId` and `metadataURI` are plain JS properties that can be
`undefined`, hence dropped on serialization. -/
structure Submission where
  id : String
  applicantAddress : Option String
  title : Option String
  description : Option String
  latitude : Option String
  longitude : Option String
  ipfsHash : Option String
  imageUrl : Option String
  originalFileName : String
  mimeType : String
  size : Nat
  createdAt : String
  status : String
  txHash : Option String
  tokenId : Option String
  metadataURI : Option String
  deriving Repr, DecidableEq

/-- Encode a nullable field: JS `null` when absent. -/
def encodeOptNull : Option String → Json
  | none => Json.null
  | some s => Json.str s

/-- Encode a possibly-`undefined` field: dropped entirely when absent,
as `JSON.stringify` does. -/
def optField (k : String) (v : Option String) (rest : List (String × Json)) :
    List (String × Json) :=
  match v with
  | none => rest
  | some s => (k, Json.str s) :: rest

/-- `JSON.stringify` of one submission record, at the tree level. -/
def encodeSubmission (s : Submission) : Json :=
  Json.obj (
    ("id", Json.str s.id) ::
    ("applicantAddress", encodeOptNull s.applicantAddress) ::
    ("title", encodeOptNull s.title) ::
    ("description", encodeOptNull s.description) ::
    ("latitude", encodeOptNull s.latitude) ::
    ("longitude", encodeOptNull s.longitude) ::
    optField "ipfsHash" s.ipfsHash (
    ("imageUrl", encodeOptNull s.imageUrl) ::
    ("originalFileName", Json.str s.originalFileName) ::
    ("mimeType", Json.str s.mimeType) ::
    ("size", Json.num s.size) ::
    ("createdAt", Json.str s.createdAt) ::
    ("status", Json.str s.status) ::
    optField "txHash" s.txHash (
    optField "tokenId" s.tokenId (
    optField "metadataURI" s.metadataURI []))))

/-- Read a required string property. -/
def getStr (j : Json) (k : String) : Option String :=
  match jsonField j k with
  | some (Json.str s) => some s
  | _ => none

/-- Read a required numeric property. -/
def getNat (j : Json) (k : String) : Option Nat :=
  match jsonField j k with
  | some (Json.num n) => some n
  | _ => none

/-- Read a nullable string property (`null` ↦ absent). -/
def getNullableStr (j : Json) (k : String) : Option (Option String) :=
  match jsonField j k with
  | some Json.null => some none
  | some (Json.str s) => some (some s)
  | _ => none

/-- Read a possibly-dropped string property (missing key ↦ absent). -/
def getDroppedStr (j : Json) (k : String) : Option (Option String) :=
  match jsonField j k with
  | none => some none
  | some (Json.str s) => some (some s)
  | _ => none

/-- Reading one reloaded record back into the record shape the handlers
use: each handler field access on the parsed object. -/
def decodeSubmission (j : Json) : Option Submission := do
  let id ← getStr j "id"
  let applicantAddress ← getNullableStr j "applicantAddress"
  let title ← getNullableStr j "title"
  let description ← getNullableStr j "description"
  let latitude ← getNullableStr j "latitude"
  let longitude ← getNullableStr j "longitude"
  let ipfsHash ← getDroppedStr j "ipfsHash"
  let imageUrl ← getNullableStr j "imageUrl"
  let originalFileName ← getStr j "originalFileName"
  let mimeType ← getStr j "mimeType"
  let size ← getNat j "size"
  let createdAt ← getStr j "createdAt"
  let status ← getStr j "status"
  let txHash ← getDroppedStr j "txHash"
  let tokenId ← getDroppedStr j "tokenId"
  let metadataURI ← getDroppedStr j "metadataURI"
  pure {
    id := id
    applicantAddress := applicantAddress
    title := title
    description := description
    latitude := latitude
    longitude := longitude
    ipfsHash := ipfsHash
    imageUrl := imageUrl
    originalFileName := originalFileName
    mimeType := mimeType
    size := size
    createdAt := createdAt
    status := status
    txHash := txHash
    tokenId := tokenId
    metadataURI := metadataURI }

/-- Decode every element of the persisted array. -/
def decodeAll : List Json → Option (List Submission)
  | [] => some []
  | j :: rest =>
    match decodeSubmission j, decodeAll rest with
    | some s, some l => some (s :: l)
    | _, _ => none

/-- `saveSubmissions(arr)` (`server.js` lines 38-40): writes
`JSON.stringify(arr, null, 2)`, i.e. the array of encoded records. -/
def saveSubmissions (l : List Submission) : Json :=
  Json.arr (l.map encodeSubmission)

/-- `loadSubmissions()` (`server.js` lines 29-37): a missing file (ENOENT)
yields `[]`; otherwise the file's JSON tree is parsed and its records read
back.  The file contents are `none` when no file exists. -/
def loadSubmissions (file : Option Json) : Option (List Submission) :=
  match file with
  | none => some []
  | some (Json.arr xs) => decodeAll xs
  | some _ => none

/-! ## Flat-file read and status endpoints (`server.js`) -/

/-- `GET /api/submissions` (`server.js` lines 131-139): returns the loaded
array as-is; no sorting is applied. -/
def listFlat (store : List Submission) : List Submission :=
  store

/-- The record update performed by `POST /api/submissions/:id/minted`
(`server.js` lines 164-170): spread the old record and overwrite
`status`, `txHash`, `tokenId`, `metadataURI`. -/
def applyMint (s : Submission) (tx tok uri : Option String) : Submission :=
  { s with status := "approved", txHash := tx, tokenId := tok, metadataURI := uri }

/-- `submissions.findIndex(s => s.id === id)` followed by replacing that
element: update the first record whose `id` matches, returning the new
array and the updated record, or `none` when no record matches. -/
def markMintedList (store : List Submission) (rid : String)
    (tx tok uri : Option String) : Option (List Submission × Submission) :=
  match store with
  | [] => none
  | s :: rest =>
    if s.id = rid then
      some (applyMint s tx tok uri :: rest, applyMint s tx tok uri)
    else
      match markMintedList rest rid tx tok uri with
      | none => none
      | some (rest2, upd) => some (s :: rest2, upd)

/-- `POST /api/submissions/:id/minted` (`server.js` lines 157-178) at the
store level: 404 without saving when the id is unknown, otherwise save the
updated array and respond 200. -/
def mintedRoute (store : List Submission) (rid : String)
    (tx tok uri : Option String) : Nat × List Submission :=
  match markMintedList store rid tx tok uri with
  | none => (404, store)
  | some (store2, _) => (200, store2)

/-! ## Remote-table variant (`part_000`, Supabase client)

The Supabase client itself is an external collaborator; its contract is
modelled from the spec: `selectAll(table, orderBy, descending)` delegates
ORDER BY to the store, and an update matching no row is a storage error
(`.single()` on zero rows), which the handler's catch turns into 500. -/

/-- Descending order on creation timestamps (ISO strings compare
lexicographically). -/
def createdDesc (a b : Submission) : Prop :=
  b.createdAt ≤ a.createdAt

instance : DecidableRel createdDesc := fun a b =>
  inferInstanceAs (Decidable (b.createdAt ≤ a.createdAt))

/-- Modelled from the spec: `GET /api/submissions` in the remote variant
(`part_000` lines 112-124) delegates `ORDER BY createdAt DESC` to the
external store. -/
def listRemote (table : List Submission) : List Submission :=
  List.insertionSort createdDesc table

/-- Modelled from the spec: the remote update patch of `part_000` lines
152-158 applied to every matching row, with the external client's
not-found-on-update failure (`StorageError`, from `.single()` on zero
rows) surfaced as `none`. -/
def updateMintedRemote (table : List Submission) (rid : String)
    (tx tok uri : Option String) : Option (List Submission) :=
  if table.any (fun s => s.id = rid) then
    some (table.map (fun s => if s.id = rid then applyMint s tx tok uri else s))
  else
    none

/-- `POST /api/submissions/:id/minted` in the remote variant (`part_000`
lines 150-165): `if (error) throw error` sends every client failure to the
catch block, which responds 500. -/
def mintedRouteRemote (table : List Submission) (rid : String)
    (tx tok uri : Option String) : Nat × List Submission :=
  match updateMintedRemote table rid tx tok uri with
  | none => (500, table)
  | some table2 => (200, table2)

/-! ## Submission pipeline (`POST /submitData`, `server.js` lines 45-128) -/

/-- The multipart text fields the handler reads from `req.body`. -/
structure SubmitBody where
  name : Option String
  applicantAddress : Option String
  description : Option String
  latitude : Option String
  longitude : Option String
  deriving Repr, DecidableEq

instance : Inhabited SubmitBody :=
  ⟨⟨none, none, none, none, none⟩⟩

/-- The uploaded file as multer presents it (`req.file`). -/
structure FileInfo where
  originalname : String
  mimetype : String
  size : Nat
  deriving Repr, DecidableEq

/-- Outcome of the axios call to the pinning service: `failure` when the
call throws (unreachable service or non-success status); `success hash`
when it returns 2xx, where `hash` is `resp.data?.IpfsHash`, possibly
absent. -/
inductive PinOutcome where
  | failure : PinOutcome
  | success : Option String → PinOutcome
  deriving Repr, DecidableEq

/-- The handler's response. -/
inductive SubmitResult where
  | badRequest : String → SubmitResult
  | serverError : String → SubmitResult
  | created : Submission → SubmitResult
  deriving Repr, DecidableEq

/-- HTTP status of a response. -/
def statusOf : SubmitResult → Nat
  | SubmitResult.badRequest _ => 400
  | SubmitResult.serverError _ => 500
  | SubmitResult.created _ => 201

/-- JS `x || null` on an optional string field: the empty string is falsy
and becomes `null`. -/
def orNull : Option String → Option String
  | none => none
  | some s => if s = "" then none else some s

/-- JS truthiness test `!body.description`: absent or empty is falsy. -/
def descMissing : Option SubmitBody → Bool
  | none => true
  | some b =>
    match b.description with
    | none => true
    | some s => s = ""

/-- The record assembled at `server.js` lines 103-117: `hash` is
`pinataResp.data?.IpfsHash`, `ipfsUrl` is derived from it with the fixed
gateway template (else `null`), status is "pending". -/
def assembleSubmission (b : SubmitBody) (f : FileInfo) (hash : Option String)
    (newId now : String) : Submission :=
  { id := newId
    applicantAddress := orNull b.applicantAddress
    title := orNull b.name
    description := orNull b.description
    latitude := orNull b.latitude
    longitude := orNull b.longitude
    ipfsHash := hash
    imageUrl := hash.map (fun h => "https://gateway.pinata.cloud/ipfs/" ++ h)
    originalFileName := f.originalname
    mimeType := f.mimetype
    size := f.size
    createdAt := now
    status := "pending"
    txHash := none
    tokenId := none
    metadataURI := none }

/-- `POST /submitData` (`server.js` lines 45-128).  Explicit arguments
stand for the handler's effects: `pinataJwt` is the environment variable,
`pin` the axios call's outcome, `newId` the generated uuid, `now` the
creation timestamp, `store` the loaded flat-file store.  Returns the
response and the store after the request. -/
def submitData (body : Option SubmitBody) (file : Option FileInfo)
    (pinataJwt : Option String) (pin : PinOutcome)
    (newId now : String) (store : List Submission) :
    SubmitResult × List Submission :=
  if descMissing body then
    (SubmitResult.badRequest "Missing required field: description", store)
  else
    match file with
    | none =>
      (SubmitResult.badRequest "Missing image file (field name must be \"image\")", store)
    | some f =>
      match pinataJwt with
      | none => (SubmitResult.serverError "Pinata JWT not configured on server", store)
      | some _ =>
        match pin with
        | PinOutcome.failure => (SubmitResult.serverError "Server error", store)
        | PinOutcome.success hash =>
          let sub := assembleSubmission (body.getD default) f hash newId now
          (SubmitResult.created sub, store ++ [sub])

/-! ## The `part_001` flat-file variant

Its `POST /submitData` assembles a record with fields `id`, `name`,
`description`, `latitude`, `longitude`, `ipfsHash`, `ipfsUrl`,
`originalFileName`, `mimeType`, `size`, `createdAt` — and no `status`
field (`part_001` lines 104-116). -/

structure SubmissionV1 where
  id : String
  name : Option String
  description : Option String
  latitude : Option String
  longitude : Option String
  ipfsHash : Option String
  ipfsUrl : Option String
  originalFileName : String
  mimeType : String
  size : Nat
  createdAt : String
  deriving Repr, DecidableEq

/-- Response of the `part_001` handler. -/
inductive SubmitResultV1 where
  | badRequest : String → SubmitResultV1
  | serverError : String → SubmitResultV1
  | created : SubmissionV1 → SubmitResultV1
  deriving Repr, DecidableEq

/-- `JSON.stringify` of one `part_001` record, at the tree level
(`ipfsHash` can be `undefined` and is then dropped). -/
def encodeSubmissionV1 (s : SubmissionV1) : Json :=
  Json.obj (
    ("id", Json.str s.id) ::
    ("name", encodeOptNull s.name) ::
    ("description", encodeOptNull s.description) ::
    ("latitude", encodeOptNull s.latitude) ::
    ("longitude", encodeOptNull s.longitude) ::
    optField "ipfsHash" s.ipfsHash (
    ("ipfsUrl", encodeOptNull s.ipfsUrl) ::
    ("originalFileName", Json.str s.originalFileName) ::
    ("mimeType", Json.str s.mimeType) ::
    ("size", Json.num s.size) ::
    ("createdAt", Json.str s.createdAt) :: []))

/-- The record assembled at `part_001` lines 104-116: note there is no
`status` field. -/
def assembleSubmissionV1 (b : SubmitBody) (f : FileInfo) (hash : Option String)
    (newId now : String) : SubmissionV1 :=
  { id := newId
    name := orNull b.name
    description := orNull b.description
    latitude := orNull b.latitude
    longitude := orNull b.longitude
    ipfsHash := hash
    ipfsUrl := hash.map (fun h => "https://gateway.pinata.cloud/ipfs/" ++ h)
    originalFileName := f.originalname
    mimeType := f.mimetype
    size := f.size
    createdAt := now }

/-- `POST /submitData` of `part_001` (lines 49-128): same validation, JWT
check and pin call as `server.js`, but the assembled record has no
`status` (and no `applicantAddress`/`title`). -/
def submitDataV1 (body : Option SubmitBody) (file : Option FileInfo)
    (pinataJwt : Option String) (pin : PinOutcome)
    (newId now : String) (store : List SubmissionV1) :
    SubmitResultV1 × List SubmissionV1 :=
  if descMissing body then
    (SubmitResultV1.badRequest "Missing required field: description", store)
  else
    match file with
    | none =>
      (SubmitResultV1.badRequest "Missing image file (field name must be \"image\")", store)
    | some f =>
      match pinataJwt with
      | none => (SubmitResultV1.serverError "Pinata JWT not configured on server", store)
      | some _ =>
        match pin with
        | PinOutcome.failure => (SubmitResultV1.serverError "Server error", store)
        | PinOutcome.success hash =>
          let sub := assembleSubmissionV1 (body.getD default) f hash newId now
          (SubmitResultV1.created sub, store ++ [sub])

/-! ## Project creation (`part_000` lines 172-221) -/

/-- A JavaScript value as it appears in a parsed JSON request body, for
the project endpoint's truthiness-based validation. -/
inductive JsVal where
  | undef : JsVal
  | null : JsVal
  | str : String → JsVal
  | num : Int → JsVal
  | boolean : Bool → JsVal
  deriving Repr, DecidableEq

/-- JavaScript truthiness: `undefined`, `null`, `""`, `0` and `false` are
falsy. -/
def truthy : JsVal → Bool
  | JsVal.undef => false
  | JsVal.null => false
  | JsVal.str s => ¬ s = ""
  | JsVal.num n => ¬ n = 0
  | JsVal.boolean b => b

/-- The fields `POST /api/projects` destructures from `req.body`
(`part_000` lines 174-186). -/
structure ProjectBody where
  projectId : JsVal
  projectName : JsVal
  latitude : JsVal
  longitude : JsVal
  ecosystemType : JsVal
  ownership : JsVal
  governance : JsVal
  implementingAgency : JsVal
  projectDescription : JsVal
  area : JsVal
  establishmentDate : JsVal
  deriving Repr, DecidableEq

/-- The row inserted into the `projects` table (`part_000` lines 192-210). -/
structure ProjectRow where
  projectId : JsVal
  projectName : JsVal
  latitude : JsVal
  longitude : JsVal
  ecosystemType : JsVal
  ownership : JsVal
  governance : JsVal
  implementingAgency : JsVal
  projectDescription : JsVal
  area : JsVal
  establishmentDate : JsVal
  status : String
  createdAt : String
  deriving Repr, DecidableEq

/-- `POST /api/projects` (`part_000` lines 172-221): the six required
fields are tested with `!field` (JS truthiness); on failure respond 400
and insert nothing, otherwise insert the row with status "draft". -/
def createProject (b : ProjectBody) (now : String) (table : List ProjectRow) :
    Nat × List ProjectRow :=
  if !truthy b.projectId || !truthy b.projectName || !truthy b.latitude ||
      !truthy b.longitude || !truthy b.ecosystemType || !truthy b.implementingAgency then
    (400, table)
  else
    (201, table ++ [{
      projectId := b.projectId
      projectName := b.projectName
      latitude := b.latitude
      longitude := b.longitude
      ecosystemType := b.ecosystemType
      ownership := b.ownership
      governance := b.governance
      implementingAgency := b.implementingAgency
      projectDescription := b.projectDescription
      area := b.area
      establishmentDate := b.establishmentDate
      status := "draft"
      createdAt := now }])

/-! ## Concrete sample data used by witnesses and counterexamples -/

/-- A representative request body. -/
def sampleBody : SubmitBody :=
  { name := some "Alice"
    applicantAddress := some "0xabc123"
    description := some "a mangrove plot"
    latitude := some "12.5"
    longitude := some "77.1" }

/-- A representative uploaded file. -/
def sampleFile : FileInfo :=
  { originalname := "photo.png", mimetype := "image/png", size := 2048 }

/-- A representative stored submission record. -/
def sampleSub : Submission :=
  { id := "s1"
    applicantAddress := some "0xabc123"
    title := some "Alice"
    description := some "a mangrove plot"
    latitude := some "12.5"
    longitude := some "77.1"
    ipfsHash := some "QmAAA"
    imageUrl := some "https://gateway.pinata.cloud/ipfs/QmAAA"
    originalFileName := "photo.png"
    mimeType := "image/png"
    size := 2048
    createdAt := "2024-01-01T00:00:00.000Z"
    status := "pending"
    txHash := none
    tokenId := none
    metadataURI := none }

/-- A record created at a strictly later timestamp than `sampleSub`. -/
def sampleSubLater : Submission :=
  { sampleSub with id := "s2", createdAt := "2024-01-02T00:00:00.000Z" }

/-- `sampleSub` after `markMinted` with one set of evidence. -/
def sampleMintedA : Submission :=
  applyMint sampleSub (some "0xdead") (some "7") (some "ipfs://meta-a")

/-- `sampleSub` after `markMinted` with another set of evidence. -/
def sampleMintedB : Submission :=
  applyMint sampleSub (some "0xbeef") (some "9") (some "ipfs://meta-b")

/-- The record `submitData` persists for `sampleBody`/`sampleFile` when the
pin call reports success without a content identifier. -/
def sampleNoCidRec : Submission :=
  assembleSubmission sampleBody sampleFile none "id-1" "2024-05-01T00:00:00.000Z"

/-- The record the `part_001` handler persists for `sampleBody`/`sampleFile`
on a successful pin. -/
def sampleRecV1 : SubmissionV1 :=
  assembleSubmissionV1 sampleBody sampleFile (some "QmHash1") "id-9" "2024-05-02T00:00:00.000Z"

/-- A project-creation body in which every required field is supplied and
the latitude is the number 0 (a valid coordinate). -/
def sampleProjectZeroLat : ProjectBody :=
  { projectId := JsVal.str "proj-1"
    projectName := JsVal.str "Sundarbans Restoration"
    latitude := JsVal.num 0
    longitude := JsVal.num 77
    ecosystemType := JsVal.str "mangrove"
    ownership := JsVal.str "community"
    governance := JsVal.str "panchayat"
    implementingAgency := JsVal.str "NCCR"
    projectDescription := JsVal.str "tidal wetland restoration"
    area := JsVal.num 12
    establishmentDate := JsVal.str "2024-01-01" }

/-! ## Helper lemmas and instances -/

instance : IsTotal Submission createdDesc :=
  ⟨fun a b => le_total b.createdAt a.createdAt⟩

instance : IsTrans Submission createdDesc :=
  ⟨fun _ _ _ hab hbc => le_trans hbc hab⟩

theorem decode_encode_submission (s : Submission) :
    decodeSubmission (encodeSubmission s) = some s := by
  obtain ⟨id, aa, ti, de, la, lo, ih, iu, ofn, mt, sz, ca, st, tx, tk, mu⟩ := s
  cases aa <;> cases ti <;> cases de <;> cases la <;> cases lo <;>
    cases ih <;> cases iu <;> cases tx <;> cases tk <;> cases mu <;> rfl

theorem markMintedList_eq_none (store : List Submission) (rid : String)
    (tx tok uri : Option String) (h : ∀ s ∈ store, s.id ≠ rid) :
    markMintedList store rid tx tok uri = none := by
  induction store with
  | nil => rfl
  | cons s rest ih =>
    have hs : s.id ≠ rid := h s (List.mem_cons_self s rest)
    have hr : ∀ t ∈ rest, t.id ≠ rid := fun t ht => h t (List.mem_cons_of_mem s ht)
    simp [markMintedList, hs, ih hr]

/-! ## Claim theorems -/

/-- C8: Round-trip of the flat-file store: saving any sequence of
submission records with `saveSubmissions` and reloading with
`loadSubmissions` yields a sequence equal in all fields to the one saved,
and loading when no file exists yields the empty sequence. -/
theorem C8_flat_file_roundtrip (l : List Submission) :
    loadSubmissions (some (saveSubmissions l)) = some l ∧
    loadSubmissions none = some [] := by
  constructor
  · show decodeAll (l.map encodeSubmission) = some l
    induction l with
    | nil => rfl
    | cons s rest ih => simp [decodeAll, decode_encode_submission, ih]
  · rfl

/-- C2 fails as stated: the flat-file `GET /api/submissions` handler
returns the loaded array without sorting, so with two records created at
timestamps t1 < t2 (hence stored in the order [t1, t2]) the listing is
[t1, t2], not the claimed [t2, t1]. -/
theorem C2_flat_listing_not_descending_counterexample :
    sampleSub.createdAt < sampleSubLater.createdAt ∧
    listFlat [sampleSub, sampleSubLater] = [sampleSub, sampleSubLater] ∧
    listFlat [sampleSub, sampleSubLater] ≠ [sampleSubLater, sampleSub] := by
  refine ⟨?_, rfl, by decide⟩
  rw [String.lt_iff_toList_lt]
  decide

/-- C2 (amended): only the remote-table variant lists submissions ordered
by creation timestamp descending (ORDER BY delegated to the store); the
flat-file variant returns the stored sequence unchanged, i.e. in insertion
order. -/
theorem C2_listing_order (store table : List Submission) :
    listFlat store = store ∧
    List.Sorted createdDesc (listRemote table) ∧
    List.Perm (listRemote table) table :=
  ⟨rfl, List.sorted_insertionSort createdDesc table, List.perm_insertionSort createdDesc table⟩

/-- C3 fails as stated: in the remote-table variant, `markMinted` on an id
absent from the table responds 500 (the external client's
not-found-on-update failure is thrown and caught), not 404; the table is
unchanged. -/
theorem C3_remote_unknown_id_responds_500_counterexample :
    mintedRouteRemote [] "missing-id" (some "0xdead") (some "7") (some "ipfs://m")
      = (500, []) ∧
    (mintedRouteRemote [] "missing-id" (some "0xdead") (some "7") (some "ipfs://m")).1 ≠ 404 := by
  refine ⟨rfl, by decide⟩

/-- C3 (amended): for every id not present in the store, the flat-file
variant's `markMinted` responds 404 and leaves the store exactly as it
was; the remote-table variant responds 500 (storage error) and likewise
leaves the table unchanged. -/
theorem C3_unknown_id_store_unchanged (store table : List Submission) (rid : String)
    (tx tok uri : Option String)
    (hs : ∀ s ∈ store, s.id ≠ rid) (ht : ∀ s ∈ table, s.id ≠ rid) :
    mintedRoute store rid tx tok uri = (404, store) ∧
    mintedRouteRemote table rid tx tok uri = (500, table) := by
  constructor
  · simp [mintedRoute, markMintedList_eq_none store rid tx tok uri hs]
  · have hany : table.any (fun s => s.id = rid) = false := by
      simp only [List.any_eq_false, decide_eq_true_eq]
      exact fun s hmem => ht s hmem
    simp [mintedRouteRemote, updateMintedRemote, hany]

/-- C3 witness: a store holding only `sampleSub` (id "s1") and the unknown
id "zzz". -/
theorem C3_unknown_id_store_unchanged_witness :
    mintedRoute [sampleSub] "zzz" (some "0xdead") (some "7") (some "ipfs://m")
      = (404, [sampleSub]) ∧
    mintedRouteRemote [sampleSub] "zzz" (some "0xdead") (some "7") (some "ipfs://m")
      = (500, [sampleSub]) :=
  C3_unknown_id_store_unchanged [sampleSub] [sampleSub] "zzz"
    (some "0xdead") (some "7") (some "ipfs://m") (by decide) (by decide)

/-- C10: `POST /api/projects` tests required fields with JS truthiness, so
a request supplying every required field but with latitude equal to the
number 0 is rejected with 400 "Missing required fields" and no row is
inserted. -/
theorem C10_zero_coordinate_rejected (now : String) (table : List ProjectRow) :
    createProject sampleProjectZeroLat now table = (400, table) := rfl

/-- C5: `markMinted` on a known id is idempotent: when one call updates
the store to `store2` and returns the record `u`, a second call with the
same evidence returns exactly `(store2, u)` again, and `u` has status
"approved" with the three evidence fields stored verbatim. -/
theorem C5_markMinted_idempotent (store store2 : List Submission) (rid : String)
    (tx tok uri : Option String) (u : Submission)
    (h : markMintedList store rid tx tok uri = some (store2, u)) :
    markMintedList store2 rid tx tok uri = some (store2, u) ∧
    u.status = "approved" ∧ u.txHash = tx ∧ u.tokenId = tok ∧ u.metadataURI = uri := by
  induction store generalizing store2 with
  | nil => simp [markMintedList] at h
  | cons s rest ih =>
    by_cases hs : s.id = rid
    · simp only [markMintedList, if_pos hs, Option.some_inj] at h
      obtain ⟨h1, h2⟩ := Prod.mk.injEq .. ▸ h
      subst h1
      subst h2
      refine ⟨?_, rfl, rfl, rfl, rfl⟩
      simp [markMintedList, applyMint, hs]
    · simp only [markMintedList, if_neg hs] at h
      cases hrec : markMintedList rest rid tx tok uri with
      | none => rw [hrec] at h; simp at h
      | some p =>
        obtain ⟨rest2, upd⟩ := p
        rw [hrec] at h
        simp only [Option.some_inj] at h
        obtain ⟨h1, h2⟩ := Prod.mk.injEq .. ▸ h
        subst h2
        obtain ⟨ihm, ihs, ihtx, ihtok, ihuri⟩ := ih rest2 hrec
        refine ⟨?_, ihs, ihtx, ihtok, ihuri⟩
        rw [← h1]
        simp [markMintedList, hs, ihm]

/-- C5 witness: the store holding the already-minted record is sent back
unchanged by a second identical call. -/
theorem C5_markMinted_idempotent_witness :
    markMintedList [sampleMintedA] "s1" (some "0xdead") (some "7") (some "ipfs://meta-a")
      = some ([sampleMintedA], sampleMintedA) ∧
    sampleMintedA.status = "approved" ∧
    sampleMintedA.txHash = some "0xdead" ∧
    sampleMintedA.tokenId = some "7" ∧
    sampleMintedA.metadataURI = some "ipfs://meta-a" :=
  C5_markMinted_idempotent [sampleSub] [sampleMintedA] "s1"
    (some "0xdead") (some "7") (some "ipfs://meta-a") sampleMintedA (by decide)

/-- C9: `markMinted` on a known id modifies only the `status`, `txHash`,
`tokenId` and `metadataURI` fields of the first matching record: the store
decomposes around that record, every other record is untouched, and all
its remaining fields — in particular `id` — are preserved. -/
theorem C9_markMinted_frame (store store2 : List Submission) (rid : String)
    (tx tok uri : Option String) (u : Submission)
    (h : markMintedList store rid tx tok uri = some (store2, u)) :
    ∃ pre s post, store = pre ++ s :: post ∧ store2 = pre ++ u :: post ∧
      u = applyMint s tx tok uri ∧
      u.id = s.id ∧ u.applicantAddress = s.applicantAddress ∧ u.title = s.title ∧
      u.description = s.description ∧ u.latitude = s.latitude ∧
      u.longitude = s.longitude ∧ u.ipfsHash = s.ipfsHash ∧
      u.imageUrl = s.imageUrl ∧ u.originalFileName = s.originalFileName ∧
      u.mimeType = s.mimeType ∧ u.size = s.size ∧ u.createdAt = s.createdAt := by
  induction store generalizing store2 with
  | nil => simp [markMintedList] at h
  | cons s rest ih =>
    by_cases hs : s.id = rid
    · simp only [markMintedList, if_pos hs, Option.some_inj] at h
      obtain ⟨h1, h2⟩ := Prod.mk.injEq .. ▸ h
      subst h1
      subst h2
      exact ⟨[], s, rest, rfl, rfl, rfl, rfl, rfl, rfl, rfl, rfl, rfl, rfl,
        rfl, rfl, rfl, rfl, rfl⟩
    · simp only [markMintedList, if_neg hs] at h
      cases hrec : markMintedList rest rid tx tok uri with
      | none => rw [hrec] at h; simp at h
      | some p =>
        obtain ⟨rest2, upd⟩ := p
        rw [hrec] at h
        simp only [Option.some_inj] at h
        obtain ⟨h1, h2⟩ := Prod.mk.injEq .. ▸ h
        subst h2
        obtain ⟨pre, t, post, ihsplit, ihsplit2, ihrest⟩ := ih rest2 hrec
        refine ⟨s :: pre, t, post, ?_, ?_, ihrest⟩
        · rw [ihsplit]; rfl
        · rw [← h1, ihsplit2]; rfl

/-- C9 witness: minting the single stored record changes only the status
and evidence fields. -/
theorem C9_markMinted_frame_witness :
    ∃ pre s post, [sampleSub] = pre ++ s :: post ∧
      [sampleMintedB] = pre ++ sampleMintedB :: post ∧
      sampleMintedB = applyMint s (some "0xbeef") (some "9") (some "ipfs://meta-b") ∧
      sampleMintedB.id = s.id ∧
      sampleMintedB.applicantAddress = s.applicantAddress ∧
      sampleMintedB.title = s.title ∧
      sampleMintedB.description = s.description ∧
      sampleMintedB.latitude = s.latitude ∧
      sampleMintedB.longitude = s.longitude ∧
      sampleMintedB.ipfsHash = s.ipfsHash ∧
      sampleMintedB.imageUrl = s.imageUrl ∧
      sampleMintedB.originalFileName = s.originalFileName ∧
      sampleMintedB.mimeType = s.mimeType ∧
      sampleMintedB.size = s.size ∧
      sampleMintedB.createdAt = s.createdAt :=
  C9_markMinted_frame [sampleSub] [sampleMintedB] "s1"
    (some "0xbeef") (some "9") (some "ipfs://meta-b") sampleMintedB (by decide)

/-- C1 fails as stated: with a valid request and a pin call that returns a
success status but omits the content identifier, the pipeline does not
fail — it responds 201 and persists a record whose `ipfsHash` is absent
and whose `imageUrl` is null. -/
theorem C1_record_without_cid_persisted_counterexample :
    submitData (some sampleBody) (some sampleFile) (some "jwt") (PinOutcome.success none)
        "id-1" "2024-05-01T00:00:00.000Z" []
      = (SubmitResult.created sampleNoCidRec, [sampleNoCidRec]) ∧
    sampleNoCidRec.ipfsHash = none ∧
    statusOf (SubmitResult.created sampleNoCidRec) = 201 :=
  ⟨rfl, rfl, rfl⟩

/-- C1 (amended): when the pin call returns a success status without a
content identifier, every valid submit request still succeeds with 201 and
appends a record carrying no content identifier (`ipfsHash` absent) and a
null retrieval URL. -/
theorem C1_pin_success_without_cid_still_creates (b : SubmitBody) (f : FileInfo)
    (jwt newId now : String) (store : List Submission)
    (hb : descMissing (some b) = false) :
    submitData (some b) (some f) (some jwt) (PinOutcome.success none) newId now store
      = (SubmitResult.created (assembleSubmission b f none newId now),
         store ++ [assembleSubmission b f none newId now]) ∧
    (assembleSubmission b f none newId now).ipfsHash = none ∧
    (assembleSubmission b f none newId now).imageUrl = none ∧
    statusOf (SubmitResult.created (assembleSubmission b f none newId now)) = 201 := by
  refine ⟨?_, rfl, rfl, rfl⟩
  simp [submitData, hb]

/-- C1 witness: the sample request on a one-record store. -/
theorem C1_pin_success_without_cid_still_creates_witness :
    submitData (some sampleBody) (some sampleFile) (some "jwt") (PinOutcome.success none)
        "id-1" "2024-05-01T00:00:00.000Z" [sampleSub]
      = (SubmitResult.created sampleNoCidRec, [sampleSub] ++ [sampleNoCidRec]) ∧
    sampleNoCidRec.ipfsHash = none ∧
    sampleNoCidRec.imageUrl = none ∧
    statusOf (SubmitResult.created sampleNoCidRec) = 201 :=
  C1_pin_success_without_cid_still_creates sampleBody sampleFile "jwt" "id-1"
    "2024-05-01T00:00:00.000Z" [sampleSub] (by decide)

/-- C4 fails as stated: the `part_001` variant's record carries no
`status` field at all, so the record returned with 201 does not have
`status` equal to "pending" in that variant (its serialization has no
"status" key). -/
theorem C4_v1_record_has_no_status_counterexample :
    submitDataV1 (some sampleBody) (some sampleFile) (some "jwt")
        (PinOutcome.success (some "QmHash1")) "id-9" "2024-05-02T00:00:00.000Z" []
      = (SubmitResultV1.created sampleRecV1, [sampleRecV1]) ∧
    jsonField (encodeSubmissionV1 sampleRecV1) "status" = none :=
  ⟨rfl, rfl⟩

/-- C4 (amended): for every valid submission the returned 201 record's
`description` equals the input in every file variant; its `status` is
"pending" in the variants that carry a status field (`server.js`,
`part_000`, `part_002`), while the `part_001` record has no status field. -/
theorem C4_description_and_status (b : SubmitBody) (f : FileInfo)
    (jwt newId now : String) (hash : Option String)
    (store : List Submission) (storeV1 : List SubmissionV1) (d : String)
    (hd : b.description = some d) (hne : d ≠ "") :
    submitData (some b) (some f) (some jwt) (PinOutcome.success hash) newId now store
      = (SubmitResult.created (assembleSubmission b f hash newId now),
         store ++ [assembleSubmission b f hash newId now]) ∧
    (assembleSubmission b f hash newId now).description = some d ∧
    (assembleSubmission b f hash newId now).status = "pending" ∧
    submitDataV1 (some b) (some f) (some jwt) (PinOutcome.success hash) newId now storeV1
      = (SubmitResultV1.created (assembleSubmissionV1 b f hash newId now),
         storeV1 ++ [assembleSubmissionV1 b f hash newId now]) ∧
    (assembleSubmissionV1 b f hash newId now).description = some d ∧
    jsonField (encodeSubmissionV1 (assembleSubmissionV1 b f hash newId now)) "status" = none := by
  have hb : descMissing (some b) = false := by
    simp [descMissing, hd, hne]
  refine ⟨by simp [submitData, hb], ?_, rfl, by simp [submitDataV1, hb], ?_, ?_⟩
  · simp [assembleSubmission, orNull, hd, hne]
  · simp [assembleSubmissionV1, orNull, hd, hne]
  · cases hash <;> rfl

/-- C4 witness: the sample request, with and without the pin hash fixed to
"QmHash1", on empty stores. -/
theorem C4_description_and_status_witness :
    submitData (some sampleBody) (some sampleFile) (some "jwt")
        (PinOutcome.success (some "QmHash1")) "id-9" "2024-05-02T00:00:00.000Z" []
      = (SubmitResult.created
           (assembleSubmission sampleBody sampleFile (some "QmHash1") "id-9" "2024-05-02T00:00:00.000Z"),
         [] ++ [assembleSubmission sampleBody sampleFile (some "QmHash1") "id-9" "2024-05-02T00:00:00.000Z"]) ∧
    (assembleSubmission sampleBody sampleFile (some "QmHash1") "id-9" "2024-05-02T00:00:00.000Z").description
      = some "a mangrove plot" ∧
    (assembleSubmission sampleBody sampleFile (some "QmHash1") "id-9" "2024-05-02T00:00:00.000Z").status
      = "pending" ∧
    submitDataV1 (some sampleBody) (some sampleFile) (some "jwt")
        (PinOutcome.success (some "QmHash1")) "id-9" "2024-05-02T00:00:00.000Z" []
      = (SubmitResultV1.created sampleRecV1, [] ++ [sampleRecV1]) ∧
    sampleRecV1.description = some "a mangrove plot" ∧
    jsonField (encodeSubmissionV1 sampleRecV1) "status" = none :=
  C4_description_and_status sampleBody sampleFile "jwt" "id-9" "2024-05-02T00:00:00.000Z"
    (some "QmHash1") [] [] "a mangrove plot" rfl (by decide)

/-- C6: when the pin call fails (the axios call throws), the handler
responds 500 and the store after the request equals the store before it:
the pipeline is all-or-nothing on the pin step. -/
theorem C6_pin_failure_persists_nothing (b : SubmitBody) (f : FileInfo)
    (jwt newId now : String) (store : List Submission)
    (hb : descMissing (some b) = false) :
    submitData (some b) (some f) (some jwt) PinOutcome.failure newId now store
      = (SubmitResult.serverError "Server error", store) := by
  simp [submitData, hb]

/-- C6 witness: the sample request over a one-record store. -/
theorem C6_pin_failure_persists_nothing_witness :
    submitData (some sampleBody) (some sampleFile) (some "jwt") PinOutcome.failure
        "id-2" "2024-05-03T00:00:00.000Z" [sampleSub]
      = (SubmitResult.serverError "Server error", [sampleSub]) :=
  C6_pin_failure_persists_nothing sampleBody sampleFile "jwt" "id-2"
    "2024-05-03T00:00:00.000Z" [sampleSub] (by decide)

/-- C7: a submit request with a missing or empty description, or with no
file, is answered 400 with an error body, the store is unchanged, and the
outcome does not depend on the pin call (no pin call is made: the
response is the same whatever the pinning service would have answered). -/
theorem C7_validation_failure_rejects (body : Option SubmitBody) (file : Option FileInfo)
    (jwt : Option String) (pin : PinOutcome) (newId now : String) (store : List Submission)
    (h : descMissing body = true ∨ file = none) :
    (∃ msg, submitData body file jwt pin newId now store
      = (SubmitResult.badRequest msg, store)) ∧
    ∀ pin2, submitData body file jwt pin newId now store
      = submitData body file jwt pin2 newId now store := by
  rcases h with hd | hf
  · exact ⟨⟨"Missing required field: description", by simp [submitData, hd]⟩,
      fun pin2 => by simp [submitData, hd]⟩
  · rcases Bool.eq_false_or_eq_true (descMissing body) with hd | hd
    · exact ⟨⟨"Missing required field: description", by simp [submitData, hd]⟩,
        fun pin2 => by simp [submitData, hd]⟩
    · exact ⟨⟨"Missing image file (field name must be \"image\")",
        by simp [submitData, hd, hf]⟩,
        fun pin2 => by simp [submitData, hd, hf]⟩

/-- C7 witness: a request whose body has an empty description. -/
theorem C7_validation_failure_rejects_witness :
    (∃ msg, submitData (some { sampleBody with description := some "" }) (some sampleFile)
        (some "jwt") (PinOutcome.success (some "QmZ")) "id-4" "2024-05-04T00:00:00.000Z" [sampleSub]
      = (SubmitResult.badRequest msg, [sampleSub])) ∧
    ∀ pin2, submitData (some { sampleBody with description := some "" }) (some sampleFile)
        (some "jwt") (PinOutcome.success (some "QmZ")) "id-4" "2024-05-04T00:00:00.000Z" [sampleSub]
      = submitData (some { sampleBody with description := some "" }) (some sampleFile)
        (some "jwt") pin2 "id-4" "2024-05-04T00:00:00.000Z" [sampleSub] :=
  C7_validation_failure_rejects (some { sampleBody with description := some "" })
    (some sampleFile) (some "jwt") (PinOutcome.success (some "QmZ")) "id-4"
    "2024-05-04T00:00:00.000Z" [sampleSub] (Or.inl (by decide))
